import Mathlib

/-!
Verification development for the real-time simulation core of the `vibe`
top-down action-RPG repository.  The TypeScript sources are shallowly
embedded: every class becomes a record, every mutating method becomes a
pure function from the record (and its collaborators) to updated values,
JavaScript numbers become rationals, `Math.floor` becomes `Int.floor`,
`Math.sqrt` is threaded through as an explicit function parameter, and
`Math.random` draws are threaded through as explicit rational arguments
in `[0, 1)`.  `Date.now()` is threaded through as an explicit `now`
argument.
-/

namespace Vibe

/-- Tile kinds of the grid map (`TileType` in the map module). -/
inductive TileType where
  | GRASS
  | TREE
deriving DecidableEq, Repr

/-- The game map record (`GameMap` in the map module): dimensions in tiles,
tile size in pixels, and the tile grid indexed `tiles[y][x]`. -/
structure GameMap where
  width : Int
  height : Int
  tileSize : Rat
  tiles : List (List TileType)
deriving DecidableEq, Repr

/-- Lookup of `tiles[ty][tx]`.  The collision probe only reads in-bounds
indices (the out-of-bounds case is filtered before the access), so the
defaults are never exercised by in-bounds reads of a well-formed map. -/
def GameMap.tileAt (m : GameMap) (tx ty : Int) : TileType :=
  (m.tiles.getD ty.toNat []).getD tx.toNat TileType.GRASS

/-- Collision probe `checkCollisionWithMap(x, y, width, height, gameMap)`:
converts the rectangle edges to tile indices by floor division by
`tileSize`, scans every covered tile (both bounds inclusive), skips
out-of-bounds tiles, and reports a collision exactly on a covered
in-bounds TREE tile. -/
def checkCollisionWithMap (x y width height : Rat) (gameMap : GameMap) : Bool :=
  let leftTile : Int := ⌊x / gameMap.tileSize⌋
  let rightTile : Int := ⌊(x + width) / gameMap.tileSize⌋
  let topTile : Int := ⌊y / gameMap.tileSize⌋
  let bottomTile : Int := ⌊(y + height) / gameMap.tileSize⌋
  (List.range (bottomTile + 1 - topTile).toNat).any fun i =>
    (List.range (rightTile + 1 - leftTile).toNat).any fun j =>
      if topTile + (i : Int) < 0 ∨ gameMap.height ≤ topTile + (i : Int) ∨
          leftTile + (j : Int) < 0 ∨ gameMap.width ≤ leftTile + (j : Int) then
        false
      else
        decide (gameMap.tileAt (leftTile + (j : Int)) (topTile + (i : Int)) = TileType.TREE)

/-- Bridging lemma: a scan of `List.range (b + 1 - t).toNat` shifted by `t`
hits a predicate exactly when some integer of the inclusive interval
`[t, b]` does. -/
theorem any_shifted_range_eq_true_iff (t b : Int) (f : Int → Bool) :
    ((List.range (b + 1 - t).toNat).any fun i => f (t + (i : Int))) = true ↔
      ∃ k : Int, t ≤ k ∧ k ≤ b ∧ f k = true := by
  rw [List.any_eq_true]
  constructor
  · rintro ⟨i, hi, hf⟩
    rw [List.mem_range] at hi
    refine ⟨t + (i : Int), le_add_of_nonneg_right (by positivity), ?_, hf⟩
    have hi2 : (i : Int) < b + 1 - t := by omega
    omega
  · rintro ⟨k, hk1, hk2, hf⟩
    refine ⟨(k - t).toNat, ?_, ?_⟩
    · rw [List.mem_range]
      have h1 : (0 : Int) ≤ k - t := by omega
      have h2 : k - t < b + 1 - t := by omega
      omega
    · have : t + ((k - t).toNat : Int) = k := by omega
      rw [this]
      exact hf

/-- Characterization of the collision probe: it reports `true` exactly when
some tile covered by the rectangle (inclusive floor-divided edge indices)
is in bounds and holds a TREE. -/
theorem checkCollisionWithMap_eq_true_iff (m : GameMap) (x y w h : Rat) :
    checkCollisionWithMap x y w h m = true ↔
      ∃ tx ty : Int,
        ⌊x / m.tileSize⌋ ≤ tx ∧ tx ≤ ⌊(x + w) / m.tileSize⌋ ∧
        ⌊y / m.tileSize⌋ ≤ ty ∧ ty ≤ ⌊(y + h) / m.tileSize⌋ ∧
        0 ≤ tx ∧ tx < m.width ∧ 0 ≤ ty ∧ ty < m.height ∧
        m.tileAt tx ty = TileType.TREE := by
  simp only [checkCollisionWithMap, List.any_eq_true, List.mem_range]
  constructor
  · rintro ⟨i, hi, j, hj, hbody⟩
    by_cases hC : (⌊y / m.tileSize⌋ + (i : Int) < 0 ∨ m.height ≤ ⌊y / m.tileSize⌋ + (i : Int) ∨
        ⌊x / m.tileSize⌋ + (j : Int) < 0 ∨ m.width ≤ ⌊x / m.tileSize⌋ + (j : Int))
    · rw [if_pos hC] at hbody
      exact absurd hbody (by simp)
    · rw [if_neg hC] at hbody
      push_neg at hC
      obtain ⟨h1, h2, h3, h4⟩ := hC
      exact ⟨⌊x / m.tileSize⌋ + j, ⌊y / m.tileSize⌋ + i,
        by omega, by omega, by omega, by omega,
        by omega, by omega, by omega, by omega, by simpa using hbody⟩
  · rintro ⟨tx, ty, h1, h2, h3, h4, h5, h6, h7, h8, h9⟩
    refine ⟨(ty - ⌊y / m.tileSize⌋).toNat, by omega,
      (tx - ⌊x / m.tileSize⌋).toNat, by omega, ?_⟩
    have e1 : ⌊y / m.tileSize⌋ + (((ty - ⌊y / m.tileSize⌋).toNat : Nat) : Int) = ty := by omega
    have e2 : ⌊x / m.tileSize⌋ + (((tx - ⌊x / m.tileSize⌋).toNat : Nat) : Int) = tx := by omega
    rw [e1, e2, if_neg (by omega)]
    simpa using h9

/-- Claim C1: the collision probe floor-divides the rectangle edges by
`tileSize` into inclusive tile bounds and returns true iff some covered,
in-bounds tile is TREE; a rectangle fully outside the pixel bounds of the
map yields false, and a rectangle covering an in-bounds TREE tile yields
true. -/
theorem collision_probe_spec (m : GameMap) (hts : 0 < m.tileSize) :
    (∀ x y w h : Rat,
      checkCollisionWithMap x y w h m = true ↔
        ∃ tx ty : Int,
          ⌊x / m.tileSize⌋ ≤ tx ∧ tx ≤ ⌊(x + w) / m.tileSize⌋ ∧
          ⌊y / m.tileSize⌋ ≤ ty ∧ ty ≤ ⌊(y + h) / m.tileSize⌋ ∧
          0 ≤ tx ∧ tx < m.width ∧ 0 ≤ ty ∧ ty < m.height ∧
          m.tileAt tx ty = TileType.TREE) ∧
    (∀ x y w h : Rat,
      (x + w < 0 ∨ (m.width : Rat) * m.tileSize ≤ x ∨
        y + h < 0 ∨ (m.height : Rat) * m.tileSize ≤ y) →
      checkCollisionWithMap x y w h m = false) ∧
    (∀ x y w h : Rat, ∀ tx ty : Int,
      ⌊x / m.tileSize⌋ ≤ tx → tx ≤ ⌊(x + w) / m.tileSize⌋ →
      ⌊y / m.tileSize⌋ ≤ ty → ty ≤ ⌊(y + h) / m.tileSize⌋ →
      0 ≤ tx → tx < m.width → 0 ≤ ty → ty < m.height →
      m.tileAt tx ty = TileType.TREE →
      checkCollisionWithMap x y w h m = true) := by
  refine ⟨fun x y w h => checkCollisionWithMap_eq_true_iff m x y w h, ?_, ?_⟩
  · intro x y w h hout
    cases hres : checkCollisionWithMap x y w h m with
    | false => rfl
    | true =>
      obtain ⟨tx, ty, h1, h2, h3, h4, h5, h6, h7, h8, h9⟩ :=
        (checkCollisionWithMap_eq_true_iff m x y w h).mp hres
      rcases hout with hout | hout | hout | hout
      · have : ⌊(x + w) / m.tileSize⌋ < 0 :=
          Int.floor_lt.mpr (by
            push_cast
            exact div_neg_of_neg_of_pos hout hts)
        omega
      · have : m.width ≤ ⌊x / m.tileSize⌋ :=
          Int.le_floor.mpr ((le_div_iff₀ hts).mpr hout)
        omega
      · have : ⌊(y + h) / m.tileSize⌋ < 0 :=
          Int.floor_lt.mpr (by
            push_cast
            exact div_neg_of_neg_of_pos hout hts)
        omega
      · have : m.height ≤ ⌊y / m.tileSize⌋ :=
          Int.le_floor.mpr ((le_div_iff₀ hts).mpr hout)
        omega
  · intro x y w h tx ty h1 h2 h3 h4 h5 h6 h7 h8 h9
    exact (checkCollisionWithMap_eq_true_iff m x y w h).mpr
      ⟨tx, ty, h1, h2, h3, h4, h5, h6, h7, h8, h9⟩

/-- A concrete 10 by 10 map with tile size 32 and a single TREE at tile
coordinates (1, 1), used by witnesses. -/
def sampleMap : GameMap :=
  { width := 10, height := 10, tileSize := 32,
    tiles :=
      [List.replicate 10 TileType.GRASS,
        [TileType.GRASS, TileType.TREE] ++ List.replicate 8 TileType.GRASS] ++
      List.replicate 8 (List.replicate 10 TileType.GRASS) }

/-- Witness for claim C1: on the sample map, a rectangle fully left of
and above the map does not collide, while a rectangle over the TREE tile
at (1, 1) collides. -/
theorem collision_probe_spec_witness :
    checkCollisionWithMap (-100) (-50) 10 10 sampleMap = false ∧
    checkCollisionWithMap 33 33 10 10 sampleMap = true := by
  have h := collision_probe_spec sampleMap (by norm_num [sampleMap])
  constructor
  · exact h.2.1 (-100) (-50) 10 10 (Or.inl (by norm_num))
  · exact h.2.2 33 33 10 10 1 1 (by norm_num [sampleMap]) (by norm_num [sampleMap])
      (by norm_num [sampleMap]) (by norm_num [sampleMap]) (by norm_num)
      (by norm_num [sampleMap]) (by norm_num) (by norm_num [sampleMap]) (by decide)

/-- Facing directions (`Direction` in `Actor.ts`). -/
inductive Direction where
  | UP
  | DOWN
  | LEFT
  | RIGHT
deriving DecidableEq, Repr

/-- The player input snapshot (`PlayerInput` in `Player.ts`). -/
structure PlayerInput where
  up : Bool
  down : Bool
  left : Bool
  right : Bool
  action : Bool
  skill1 : Bool
  skill2 : Bool
  skill3 : Bool
  skill4 : Bool
deriving DecidableEq, Repr

/-- A collision probe `(x, y, width, height) → bool`. -/
abbrev Probe := Rat → Rat → Rat → Rat → Bool

/-- Skill state (`Skill.ts` fields relevant to behaviour, specialised to
the basic-attack skill, the only concrete skill class in the sources):
cooldown in milliseconds, timestamp of last successful use, and the
basic-attack damage and hit-box geometry (`BasicAttack`). -/
structure SkillRec where
  cooldown : Rat
  lastUsed : Rat
  damage : Rat
  range : Rat
  width : Rat
deriving DecidableEq, Repr

/-- Enemy behaviour states (`EnemyState` in `Enemy.ts`). -/
inductive EnemyState where
  | IDLE
  | PATROLLING
  | CHASING
  | ATTACKING
  | STUNNED
  | DEAD
deriving DecidableEq, Repr

/-- Player state (`Player.ts` plus the `Actor`/`GameObject` fields the
simulation reads and writes; image/equipment bookkeeping is
presentation-only and omitted). -/
structure PlayerRec where
  x : Rat
  y : Rat
  width : Rat
  height : Rat
  speed : Rat
  direction : Direction
  active : Bool
  health : Rat
  maxHealth : Rat
  input : PlayerInput
  skillSlots : List (Option SkillRec)
deriving DecidableEq, Repr

/-- Enemy state (`Enemy.ts` plus inherited `Actor`/`GameObject` fields). -/
structure EnemyRec where
  x : Rat
  y : Rat
  width : Rat
  height : Rat
  speed : Rat
  direction : Direction
  active : Bool
  health : Rat
  maxHealth : Rat
  attackDamage : Rat
  attackRange : Rat
  detectionRange : Rat
  state : EnemyState
  isAggressive : Bool
  chaseSpeed : Rat
  baseSpeed : Rat
  patrolPoints : List (Rat × Rat)
  currentPatrolIndex : Nat
  patrolWaitTime : Rat
  patrolTimer : Rat
deriving DecidableEq, Repr

/-- `Player.isAlive`: health strictly positive. -/
def PlayerRec.isAlive (p : PlayerRec) : Bool :=
  decide (0 < p.health)

/-- `Player.takeDamage(amount)`: clamp at the 0 floor. -/
def PlayerRec.takeDamage (p : PlayerRec) (amount : Rat) : PlayerRec :=
  { p with health := max 0 (p.health - amount) }

/-- `Player.heal(amount)`: cap at `maxHealth`. -/
def PlayerRec.heal (p : PlayerRec) (amount : Rat) : PlayerRec :=
  { p with health := min p.maxHealth (p.health + amount) }

/-- The `Player` health setter: clamp into `[0, maxHealth]`. -/
def PlayerRec.setHealth (p : PlayerRec) (value : Rat) : PlayerRec :=
  { p with health := max 0 (min value p.maxHealth) }

/-- `Enemy.isAlive`: health strictly positive. -/
def EnemyRec.isAlive (e : EnemyRec) : Bool :=
  decide (0 < e.health)

/-- `Enemy.takeDamage(amount)`: clamp at the 0 floor and transition to
DEAD when the resulting health is ≤ 0. -/
def EnemyRec.takeDamage (e : EnemyRec) (amount : Rat) : EnemyRec :=
  let h := max 0 (e.health - amount)
  { e with health := h, state := if h ≤ 0 then EnemyState.DEAD else e.state }

/-- The `Enemy` health setter: clamp into `[0, maxHealth]` and transition
to DEAD when the resulting health is ≤ 0. -/
def EnemyRec.setHealth (e : EnemyRec) (value : Rat) : EnemyRec :=
  let h := max 0 (min value e.maxHealth)
  { e with health := h, state := if h ≤ 0 then EnemyState.DEAD else e.state }

/-- `Enemy.canDetectPlayer`: alive player within `detectionRange`
(squared-distance comparison). -/
def EnemyRec.canDetectPlayer (e : EnemyRec) (p : PlayerRec) : Bool :=
  p.isAlive &&
    decide ((p.x - e.x) * (p.x - e.x) + (p.y - e.y) * (p.y - e.y) ≤
      e.detectionRange * e.detectionRange)

/-- `Enemy.canAttackPlayer`: alive player within `attackRange`
(squared-distance comparison). -/
def EnemyRec.canAttackPlayer (e : EnemyRec) (p : PlayerRec) : Bool :=
  p.isAlive &&
    decide ((p.x - e.x) * (p.x - e.x) + (p.y - e.y) * (p.y - e.y) ≤
      e.attackRange * e.attackRange)

/-- `Enemy.moveTowardPlayer(player, deltaTime, speed)`: move along the
normalized vector toward the player by `speed * deltaTime` pixels and
update the facing by the dominant axis of the normalized vector.
`Math.sqrt` is the explicit parameter `sqrtQ`.  No collision probe is
consulted. -/
def EnemyRec.moveTowardPlayer (e : EnemyRec) (sqrtQ : Rat → Rat) (p : PlayerRec)
    (deltaTime : Rat) (speed : Rat) : EnemyRec :=
  if !p.isAlive then e
  else
    let dx := p.x - e.x
    let dy := p.y - e.y
    let distance := sqrtQ (dx * dx + dy * dy)
    if distance ≤ 0 then e
    else
      let moveDistance := speed * deltaTime
      let normalizedDx := dx / distance
      let normalizedDy := dy / distance
      let dir :=
        if |normalizedDx| > |normalizedDy| then
          (if normalizedDx > 0 then Direction.RIGHT else Direction.LEFT)
        else
          (if normalizedDy > 0 then Direction.DOWN else Direction.UP)
      { e with
          x := e.x + normalizedDx * moveDistance,
          y := e.y + normalizedDy * moveDistance,
          direction := dir }

/-- `Enemy.patrol(deltaTime, checkCollision)`: waits out the patrol
timer, advances to the next waypoint on arrival (squared distance < 25),
and otherwise moves toward the current waypoint at `speed * deltaTime`,
resolving the X and Y steps independently against the probe. -/
def EnemyRec.patrol (e : EnemyRec) (sqrtQ : Rat → Rat) (deltaTime : Rat)
    (checkCollision : Option Probe) : EnemyRec :=
  if e.patrolPoints.length = 0 then e
  else if 0 < e.patrolTimer then { e with patrolTimer := e.patrolTimer - deltaTime }
  else
    let target := e.patrolPoints.getD e.currentPatrolIndex (0, 0)
    let dx := target.1 - e.x
    let dy := target.2 - e.y
    let distanceSquared := dx * dx + dy * dy
    if distanceSquared < 25 then
      { e with
          currentPatrolIndex := (e.currentPatrolIndex + 1) % e.patrolPoints.length,
          patrolTimer := e.patrolWaitTime }
    else
      let distance := sqrtQ distanceSquared
      let moveDistance := e.speed * deltaTime
      let normalizedDx := dx / distance
      let normalizedDy := dy / distance
      let newX := e.x + normalizedDx * moveDistance
      let newY := e.y + normalizedDy * moveDistance
      let canMoveX :=
        match checkCollision with
        | some ck => !(ck newX e.y e.width e.height)
        | none => true
      let canMoveY :=
        match checkCollision with
        | some ck => !(ck e.x newY e.width e.height)
        | none => true
      let dir :=
        if |normalizedDx| > |normalizedDy| then
          (if normalizedDx > 0 then Direction.RIGHT else Direction.LEFT)
        else
          (if normalizedDy > 0 then Direction.DOWN else Direction.UP)
      { e with
          x := if canMoveX then newX else e.x,
          y := if canMoveY then newY else e.y,
          direction := dir }

/-- `Enemy.attackPlayer(player)`: deal `attackDamage` to an alive player
in attack range. -/
def EnemyRec.attackPlayer (e : EnemyRec) (p : PlayerRec) : PlayerRec :=
  if !(e.canAttackPlayer p) || !p.isAlive then p
  else p.takeDamage e.attackDamage

/-- `Enemy.update(deltaTime, player, checkCollision)`: the behaviour
state machine.  Returns the updated enemy together with the (possibly
damaged) player. -/
def EnemyRec.update (e : EnemyRec) (sqrtQ : Rat → Rat) (deltaTime : Rat)
    (player : Option PlayerRec) (checkCollision : Option Probe) :
    EnemyRec × Option PlayerRec :=
  if !e.active || !e.isAlive then (e, player)
  else
    match e.state with
    | EnemyState.IDLE =>
      let detected :=
        match player with
        | some p => e.isAggressive && e.canDetectPlayer p
        | none => false
      if detected then
        ({ e with state := EnemyState.CHASING, speed := e.baseSpeed * e.chaseSpeed }, player)
      else if 0 < e.patrolPoints.length then
        ({ e with state := EnemyState.PATROLLING }, player)
      else (e, player)
    | EnemyState.PATROLLING =>
      let e1 := e.patrol sqrtQ deltaTime checkCollision
      let detected :=
        match player with
        | some p => e1.isAggressive && e1.canDetectPlayer p
        | none => false
      if detected then
        ({ e1 with state := EnemyState.CHASING, speed := e1.baseSpeed * e1.chaseSpeed }, player)
      else (e1, player)
    | EnemyState.CHASING =>
      match player with
      | none =>
        ({ e with
            state := if 0 < e.patrolPoints.length then EnemyState.PATROLLING else EnemyState.IDLE,
            speed := e.baseSpeed }, player)
      | some p =>
        if !p.isAlive || !(e.canDetectPlayer p) then
          ({ e with
              state := if 0 < e.patrolPoints.length then EnemyState.PATROLLING else EnemyState.IDLE,
              speed := e.baseSpeed }, player)
        else if e.canAttackPlayer p then
          ({ e with state := EnemyState.ATTACKING }, player)
        else
          (e.moveTowardPlayer sqrtQ p deltaTime (e.chaseSpeed * e.baseSpeed), player)
    | EnemyState.ATTACKING =>
      match player with
      | none =>
        ({ e with
            state := if 0 < e.patrolPoints.length then EnemyState.PATROLLING else EnemyState.IDLE,
            speed := e.baseSpeed }, player)
      | some p =>
        if !p.isAlive then
          ({ e with
              state := if 0 < e.patrolPoints.length then EnemyState.PATROLLING else EnemyState.IDLE,
              speed := e.baseSpeed }, player)
        else if !(e.canAttackPlayer p) then
          ({ e with state := EnemyState.CHASING }, player)
        else
          (e, some (e.attackPlayer p))
    | EnemyState.STUNNED => (e, player)
    | EnemyState.DEAD => ({ e with active := false }, player)

/-- `BasicAttack.calculateAttackArea`: the directional melee hit-box in
front of the player, with width/height swapped for horizontal facings.
The tuple is (x, y, width, height). -/
def calculateAttackArea (s : SkillRec) (p : PlayerRec) : Rat × Rat × Rat × Rat :=
  match p.direction with
  | Direction.UP => (p.x - (s.width - p.width) / 2, p.y - s.range, s.width, s.range)
  | Direction.DOWN => (p.x - (s.width - p.width) / 2, p.y + p.height, s.width, s.range)
  | Direction.LEFT => (p.x - s.range, p.y - (s.width - p.height) / 2, s.range, s.width)
  | Direction.RIGHT => (p.x + p.width, p.y - (s.width - p.height) / 2, s.range, s.width)

/-- `BasicAttack.isEnemyInAttackArea`: open-interval AABB overlap of an
enemy with the hit-box (x, y, width, height). -/
def isEnemyInAttackArea (en : EnemyRec) (area : Rat × Rat × Rat × Rat) : Bool :=
  decide (en.x < area.1 + area.2.2.1) && decide (area.1 < en.x + en.width) &&
    decide (en.y < area.2.1 + area.2.2.2) && decide (area.2.1 < en.y + en.height)

/-- `BasicAttack.execute`: with no target list just animate and succeed;
otherwise damage every target overlapping the hit-box.  Always reports
success. -/
def basicAttackExecute (s : SkillRec) (p : PlayerRec) (enemies : Option (List EnemyRec)) :
    Bool × Option (List EnemyRec) :=
  match enemies with
  | none => (true, none)
  | some es =>
    if es.length = 0 then (true, some es)
    else
      let area := calculateAttackArea s p
      (true, some (es.map fun en =>
        if isEnemyInAttackArea en area then en.takeDamage s.damage else en))

/-- `Skill.use`: the cooldown gate, then delegation to the skill effect;
`lastUsed` is stamped exactly on a truthy effect result.  `Date.now()`
is the explicit `now`; the effect outcome (its success flag and the
target list it leaves behind) is the explicit `executeResult`. -/
def SkillRec.use (s : SkillRec) (now : Rat) (enemies : Option (List EnemyRec))
    (executeResult : Bool × Option (List EnemyRec)) :
    Bool × SkillRec × Option (List EnemyRec) :=
  if now - s.lastUsed < s.cooldown then (false, s, enemies)
  else
    (executeResult.1,
      if executeResult.1 then { s with lastUsed := now } else s,
      executeResult.2)

/-- `SkillManager.useSkill(slot, ...)`: out-of-range or empty slots fail
silently; otherwise forward to `Skill.use` with the basic-attack effect
(the only concrete skill class in the sources). -/
def useSkill (p : PlayerRec) (slot : Nat) (now : Rat) (enemies : Option (List EnemyRec)) :
    Bool × PlayerRec × Option (List EnemyRec) :=
  if p.skillSlots.length ≤ slot then (false, p, enemies)
  else
    match p.skillSlots.getD slot none with
    | none => (false, p, enemies)
    | some s =>
      let r := s.use now enemies (basicAttackExecute s p enemies)
      (r.1, { p with skillSlots := p.skillSlots.set slot (some r.2.1) }, r.2.2)

/-- First if-block of the skill dispatch in `Player.update`: a pending
skill1 flag fires slot 0 and is cleared. -/
def dispatchSkill1 (pe : PlayerRec × Option (List EnemyRec)) (now : Rat) :
    PlayerRec × Option (List EnemyRec) :=
  if pe.1.input.skill1 = true then
    let u := useSkill pe.1 0 now pe.2
    ({ u.2.1 with input := { u.2.1.input with skill1 := false } }, u.2.2)
  else pe

/-- Second if-block of the skill dispatch in `Player.update`. -/
def dispatchSkill2 (pe : PlayerRec × Option (List EnemyRec)) (now : Rat) :
    PlayerRec × Option (List EnemyRec) :=
  if pe.1.input.skill2 = true then
    let u := useSkill pe.1 1 now pe.2
    ({ u.2.1 with input := { u.2.1.input with skill2 := false } }, u.2.2)
  else pe

/-- Third if-block of the skill dispatch in `Player.update`. -/
def dispatchSkill3 (pe : PlayerRec × Option (List EnemyRec)) (now : Rat) :
    PlayerRec × Option (List EnemyRec) :=
  if pe.1.input.skill3 = true then
    let u := useSkill pe.1 2 now pe.2
    ({ u.2.1 with input := { u.2.1.input with skill3 := false } }, u.2.2)
  else pe

/-- Fourth if-block of the skill dispatch in `Player.update`. -/
def dispatchSkill4 (pe : PlayerRec × Option (List EnemyRec)) (now : Rat) :
    PlayerRec × Option (List EnemyRec) :=
  if pe.1.input.skill4 = true then
    let u := useSkill pe.1 3 now pe.2
    ({ u.2.1 with input := { u.2.1.input with skill4 := false } }, u.2.2)
  else pe

/-- The skill-dispatch block of `Player.update`: each set trigger flag
fires its slot through the skill manager and is then cleared, in slot
order. -/
def dispatchSkills (p : PlayerRec) (enemies : Option (List EnemyRec)) (now : Rat) :
    PlayerRec × Option (List EnemyRec) :=
  dispatchSkill4 (dispatchSkill3 (dispatchSkill2 (dispatchSkill1 (p, enemies) now) now) now) now

/-- The movement-accumulation block of `Player.update`: starting from
(0, 0) and the current facing, each set movement flag adds its delta and
eagerly overwrites the facing, in source check order up, down, left,
right.  The result tuple is (dx, dy, direction). -/
def movementDelta (input : PlayerInput) (moveDistance : Rat) (dir0 : Direction) :
    Rat × Rat × Direction :=
  let s0 : Rat × Rat × Direction := (0, 0, dir0)
  let s1 := if input.up then (s0.1, s0.2.1 - moveDistance, Direction.UP) else s0
  let s2 := if input.down then (s1.1, s1.2.1 + moveDistance, Direction.DOWN) else s1
  let s3 := if input.left then (s2.1 - moveDistance, s2.2.1, Direction.LEFT) else s2
  let s4 := if input.right then (s3.1 + moveDistance, s3.2.1, Direction.RIGHT) else s3
  s4

/-- `Player.update(deltaTime, checkCollision, enemies, ctx)`: no-op when
inactive or dead; accumulate `moveDistance = speed * 60 * deltaTime`
deltas from the input flags; resolve X then Y independently against the
probe (unconditional move without a probe); then, only when a render
context is supplied, dispatch and clear the pending skill flags. -/
def PlayerRec.update (p : PlayerRec) (deltaTime : Rat) (checkCollision : Option Probe)
    (enemies : Option (List EnemyRec)) (hasCtx : Bool) (now : Rat) :
    PlayerRec × Option (List EnemyRec) :=
  if !p.active || !p.isAlive then (p, enemies)
  else
    let moveDistance := p.speed * 60 * deltaTime
    let d := movementDelta p.input moveDistance p.direction
    let dx := d.1
    let dy := d.2.1
    let p1 := { p with direction := d.2.2 }
    let p2 :=
      if dx ≠ 0 ∨ dy ≠ 0 then
        match checkCollision with
        | some ck =>
          let newX := p1.x + dx
          let p1x := if !(ck newX p1.y p1.width p1.height) then { p1 with x := newX } else p1
          let newY := p1x.y + dy
          if !(ck p1x.x newY p1x.width p1x.height) then { p1x with y := newY } else p1x
        | none => { p1 with x := p1.x + dx, y := p1.y + dy }
      else p1
    if hasCtx then dispatchSkills p2 enemies now else (p2, enemies)

/-- The camera rectangle (`camera.ts`). -/
structure Camera where
  x : Rat
  y : Rat
  width : Rat
  height : Rat
deriving DecidableEq, Repr

/-- `updateCamera(camera, target, mapWidth, mapHeight)`: center on the
target midpoint, then clamp to the map pixel bounds. -/
def updateCamera (camera : Camera) (tx ty tw th mapWidth mapHeight : Rat) : Camera :=
  let cx := tx + tw / 2 - camera.width / 2
  let cy := ty + th / 2 - camera.height / 2
  { camera with
      x := max 0 (min (mapWidth - camera.width) cx),
      y := max 0 (min (mapHeight - camera.height) cy) }

/-- Enemy-manager state (`EnemyManager`).  Factories are functions from a
pixel position to a fresh enemy. -/
structure EMState where
  spawnPoints : List (Rat × Rat)
  enemyFactories : List (Rat → Rat → EnemyRec)
  waveCount : Nat
  enemiesPerWave : Nat
  timeBetweenWaves : Rat
  waveTimer : Rat
  maxConcurrentEnemies : Nat

/-- A placeholder enemy, only used as the `getD` default behind indices
that are proven in range. -/
def defaultEnemy : EnemyRec :=
  { x := 0, y := 0, width := 16, height := 16, speed := 10,
    direction := Direction.DOWN, active := true,
    health := 50, maxHealth := 50, attackDamage := 10, attackRange := 32,
    detectionRange := 200, state := EnemyState.IDLE, isAggressive := true,
    chaseSpeed := 3/2, baseSpeed := 10, patrolPoints := [],
    currentPatrolIndex := 0, patrolWaitTime := 1, patrolTimer := 0 }

/-- `EnemyManager.spawnEnemy()`: fail on an empty spawn-point list, no
registered factories, or a live-enemy count at or above the cap;
otherwise pick a spawn point with random draw `r1` and a factory with
independent draw `r2` (each `Math.floor(Math.random() * length)`),
instantiate the enemy there, and push it onto the game's enemy list. -/
def spawnEnemy (em : EMState) (enemies : List EnemyRec) (r1 r2 : Rat) :
    Option EnemyRec × List EnemyRec :=
  if em.spawnPoints.length = 0 ∨ em.enemyFactories.length = 0 then (none, enemies)
  else if em.maxConcurrentEnemies ≤ enemies.length then (none, enemies)
  else
    let spawnPointIndex := (⌊r1 * (em.spawnPoints.length : Rat)⌋).toNat
    let spawnPoint := em.spawnPoints.getD spawnPointIndex (0, 0)
    let factoryIndex := (⌊r2 * (em.enemyFactories.length : Rat)⌋).toNat
    let factory := em.enemyFactories.getD factoryIndex fun _ _ => defaultEnemy
    let enemy := factory spawnPoint.1 spawnPoint.2
    (some enemy, enemies ++ [enemy])

/-- `EnemyManager.spawnWave(count)`: bump the wave counter, reset the
wave timer, and attempt `count` individual spawns, consuming two random
draws per attempt from the `randoms` stream. -/
def spawnWave (em : EMState) (enemies : List EnemyRec) (randoms : List (Rat × Rat))
    (count : Nat) : EMState × List EnemyRec :=
  let em1 := { em with waveCount := em.waveCount + 1, waveTimer := em.timeBetweenWaves }
  (em1, (List.range count).foldl (fun acc i =>
    let r := randoms.getD i (0, 0)
    (spawnEnemy em1 acc r.1 r.2).2) enemies)

/-- `EnemyManager.update(deltaTime)`: count the wave timer down; when it
crosses zero, spawn the next wave of `enemiesPerWave` enemies. -/
def EMState.update (em : EMState) (deltaTime : Rat) (enemies : List EnemyRec)
    (randoms : List (Rat × Rat)) : EMState × List EnemyRec :=
  if 0 < em.waveTimer then
    let t := em.waveTimer - deltaTime
    if t ≤ 0 then spawnWave { em with waveTimer := t } enemies randoms em.enemiesPerWave
    else ({ em with waveTimer := t }, enemies)
  else (em, enemies)

/-- Game-controller state (`GameController`): the player, map, camera,
enemy collection, enemy manager, and the running/paused flags.
`tileSize` mirrors the controller's `_tileSize` field. -/
structure GCState where
  player : PlayerRec
  gameMap : GameMap
  camera : Camera
  enemies : List EnemyRec
  em : EMState
  isRunning : Bool
  isPaused : Bool
  tileSize : Rat

/-- `GameController.update(deltaTime)`: short-circuit unless running and
unpaused; build the collision probe from the map; update the player
(note: the controller passes neither an enemy list nor a render context
to `Player.update`); update every enemy in order against the shared
player; reap dead enemies; run the wave manager; recenter the camera on
the player within map pixel bounds. -/
def GCState.update (g : GCState) (sqrtQ : Rat → Rat) (deltaTime : Rat)
    (randoms : List (Rat × Rat)) (now : Rat) : GCState :=
  if !g.isRunning || g.isPaused then g
  else
    let probe : Probe := fun x y w h => checkCollisionWithMap x y w h g.gameMap
    let pr := g.player.update deltaTime (some probe) none false now
    let step := fun (acc : List EnemyRec × PlayerRec) (en : EnemyRec) =>
      let r := en.update sqrtQ deltaTime (some acc.2) (some probe)
      (acc.1 ++ [r.1], r.2.getD acc.2)
    let folded := g.enemies.foldl step ([], pr.1)
    let enemies1 := folded.1.filter fun en => en.isAlive
    let emr := g.em.update deltaTime enemies1 randoms
    let mapWidthPx := (g.gameMap.width : Rat) * g.tileSize
    let mapHeightPx := (g.gameMap.height : Rat) * g.tileSize
    let p2 := folded.2
    let cam := updateCamera g.camera p2.x p2.y p2.width p2.height mapWidthPx mapHeightPx
    { g with player := p2, enemies := emr.2, em := emr.1, camera := cam }

/-- The all-false input snapshot. -/
def noInput : PlayerInput :=
  { up := false, down := false, left := false, right := false, action := false,
    skill1 := false, skill2 := false, skill3 := false, skill4 := false }

/-- A concrete full-health player used by witnesses and counterexamples. -/
def cPlayerA : PlayerRec :=
  { x := 0, y := 0, width := 16, height := 16, speed := 2,
    direction := Direction.DOWN, active := true,
    health := 100, maxHealth := 100, input := noInput, skillSlots := [] }

/-- Counterexample to claim C4: `takeDamage` with a negative amount
drives health above `maxHealth`, so health is not clamped to
`[0, maxHealth]` under takeDamage with arbitrary amounts. -/
theorem health_clamping_counterexample :
    cPlayerA.maxHealth = 100 ∧ (cPlayerA.takeDamage (-50)).health = 150 := by
  constructor
  · rfl
  · simp only [PlayerRec.takeDamage, cPlayerA]
    norm_num

/-- Claim C4 (amended): for players and enemies, the health setter clamps
into `[0, maxHealth]` (given a nonnegative `maxHealth`), `takeDamage`
and `heal` with nonnegative amounts preserve `health ∈ [0, maxHealth]`,
`takeDamage` unconditionally never goes below 0, `heal` unconditionally
never exceeds `maxHealth`, and `isAlive` holds exactly when health is
positive. -/
theorem health_clamping (p : PlayerRec) (e : EnemyRec) (v a : Rat)
    (hp0 : 0 ≤ p.health) (hpm : p.health ≤ p.maxHealth) (hpmax : 0 ≤ p.maxHealth)
    (he0 : 0 ≤ e.health) (hem : e.health ≤ e.maxHealth) (hemax : 0 ≤ e.maxHealth)
    (ha : 0 ≤ a) :
    (0 ≤ (p.setHealth v).health ∧ (p.setHealth v).health ≤ p.maxHealth) ∧
    (0 ≤ (p.takeDamage a).health ∧ (p.takeDamage a).health ≤ p.maxHealth) ∧
    (0 ≤ (p.heal a).health ∧ (p.heal a).health ≤ p.maxHealth) ∧
    (0 ≤ (e.setHealth v).health ∧ (e.setHealth v).health ≤ e.maxHealth) ∧
    (0 ≤ (e.takeDamage a).health ∧ (e.takeDamage a).health ≤ e.maxHealth) ∧
    (∀ b : Rat, 0 ≤ (p.takeDamage b).health) ∧
    (∀ b : Rat, (p.heal b).health ≤ p.maxHealth) ∧
    (∀ b : Rat, 0 ≤ (e.takeDamage b).health) ∧
    (p.isAlive = true ↔ 0 < p.health) ∧
    (e.isAlive = true ↔ 0 < e.health) := by
  refine ⟨⟨le_max_left _ _, ?_⟩, ⟨le_max_left _ _, ?_⟩, ⟨?_, ?_⟩,
    ⟨le_max_left _ _, ?_⟩, ⟨le_max_left _ _, ?_⟩,
    fun b => le_max_left _ _, fun b => ?_, fun b => le_max_left _ _, ?_, ?_⟩
  · simp only [PlayerRec.setHealth]
    exact max_le hpmax (min_le_right _ _)
  · simp only [PlayerRec.takeDamage]
    exact max_le hpmax (by linarith)
  · simp only [PlayerRec.heal]
    exact le_min hpmax (by linarith)
  · simp only [PlayerRec.heal]
    exact min_le_left _ _
  · simp only [EnemyRec.setHealth]
    exact max_le hemax (min_le_right _ _)
  · simp only [EnemyRec.takeDamage]
    exact max_le hemax (by linarith)
  · simp only [PlayerRec.heal]
    exact min_le_left _ _
  · simp [PlayerRec.isAlive]
  · simp [EnemyRec.isAlive]

/-- Witness for claim C4 (amended), instantiated at the concrete player
and the default enemy with `v = 30` and `a = 10`. -/
theorem health_clamping_witness :
    (0 ≤ (cPlayerA.setHealth 30).health ∧ (cPlayerA.setHealth 30).health ≤ cPlayerA.maxHealth) ∧
    (0 ≤ (cPlayerA.takeDamage 10).health ∧
      (cPlayerA.takeDamage 10).health ≤ cPlayerA.maxHealth) := by
  have h := health_clamping cPlayerA defaultEnemy 30 10
    (by norm_num [cPlayerA]) (by norm_num [cPlayerA]) (by norm_num [cPlayerA])
    (by norm_num [defaultEnemy]) (by norm_num [defaultEnemy]) (by norm_num [defaultEnemy])
    (by norm_num)
  exact ⟨h.1, h.2.1⟩

/-- Claim C5: `Skill.use` is cooldown-gated and atomic on failure: inside
the cooldown window it returns false and changes nothing; outside it the
effect runs and `lastUsed` is stamped to `now` exactly on a truthy
result; with a 500 ms cooldown, a successful use followed within 100 ms
by a second use yields true then false (second call state-unchanged),
and a third call more than 500 ms after the first succeeds again. -/
theorem skill_cooldown_gating :
    (∀ (s : SkillRec) (now : Rat) (enemies : Option (List EnemyRec))
        (res : Bool × Option (List EnemyRec)),
      now - s.lastUsed < s.cooldown → s.use now enemies res = (false, s, enemies)) ∧
    (∀ (s : SkillRec) (now : Rat) (enemies : Option (List EnemyRec))
        (res : Bool × Option (List EnemyRec)),
      ¬(now - s.lastUsed < s.cooldown) →
      s.use now enemies res =
        (res.1, if res.1 = true then { s with lastUsed := now } else s, res.2)) ∧
    (∀ (s : SkillRec) (t1 t2 t3 : Rat)
        (e1 e2 e3 : Option (List EnemyRec))
        (r1 r2 r3 : Bool × Option (List EnemyRec)),
      s.cooldown = 500 → 500 ≤ t1 - s.lastUsed →
      0 ≤ t2 - t1 → t2 - t1 ≤ 100 → 500 < t3 - t1 →
      r1.1 = true → r3.1 = true →
      (s.use t1 e1 r1).1 = true ∧
      (s.use t1 e1 r1).2.1.lastUsed = t1 ∧
      (s.use t1 e1 r1).2.1.use t2 e2 r2 = (false, (s.use t1 e1 r1).2.1, e2) ∧
      ((s.use t1 e1 r1).2.1.use t3 e3 r3).1 = true) := by
  refine ⟨?_, ?_, ?_⟩
  · intro s now enemies res hgate
    simp only [SkillRec.use, if_pos hgate]
  · intro s now enemies res hgate
    simp only [SkillRec.use, if_neg hgate]
  · intro s t1 t2 t3 e1 e2 e3 r1 r2 r3 hcd hfirst h21 h22 h3 hr1 hr3
    have hng1 : ¬(t1 - s.lastUsed < s.cooldown) := by rw [hcd]; linarith
    have hu1 : s.use t1 e1 r1 = (r1.1, { s with lastUsed := t1 }, r1.2) := by
      simp only [SkillRec.use, if_neg hng1, hr1]
      simp
    rw [hu1]
    refine ⟨hr1, rfl, ?_, ?_⟩
    · have hg2 : t2 - ({ s with lastUsed := t1 } : SkillRec).lastUsed <
          ({ s with lastUsed := t1 } : SkillRec).cooldown := by
        simp only [hcd]
        linarith
      simp only [SkillRec.use, if_pos hg2]
    · have hng3 : ¬(t3 - ({ s with lastUsed := t1 } : SkillRec).lastUsed <
          ({ s with lastUsed := t1 } : SkillRec).cooldown) := by
        simp only [hcd]
        linarith
      simp only [SkillRec.use, if_neg hng3, hr3]

/-- A concrete fresh 500 ms-cooldown skill used by witnesses. -/
def cSkill : SkillRec :=
  { cooldown := 500, lastUsed := 0, damage := 10, range := 32, width := 32 }

/-- Witness for claim C5: calls at times 1000, 1100 and 1600 on the
concrete skill yield true, false (state unchanged), true. -/
theorem skill_cooldown_gating_witness :
    (cSkill.use 1000 none (true, none)).1 = true ∧
    (cSkill.use 1000 none (true, none)).2.1.lastUsed = 1000 ∧
    (cSkill.use 1000 none (true, none)).2.1.use 1100 none (true, none) =
      (false, (cSkill.use 1000 none (true, none)).2.1, none) ∧
    ((cSkill.use 1000 none (true, none)).2.1.use 1600 none (true, none)).1 = true := by
  exact skill_cooldown_gating.2.2 cSkill 1000 1100 1600 none none none
    (true, none) (true, none) (true, none)
    rfl (by norm_num [cSkill]) (by norm_num) (by norm_num) (by norm_num) rfl rfl

/-- Claim C8: driving an enemy's health to exactly 0 via `takeDamage`
(any amount at least the current health) sets state DEAD and makes
`isAlive` false, and every subsequent `update` call is a complete no-op:
the enemy (including its position) is returned unchanged and the player
takes no damage. -/
theorem enemy_death_update_noop (e : EnemyRec) (amount : Rat)
    (hkill : e.health ≤ amount) :
    (e.takeDamage amount).health = 0 ∧
    (e.takeDamage amount).state = EnemyState.DEAD ∧
    (e.takeDamage amount).isAlive = false ∧
    (∀ (sqrtQ : Rat → Rat) (dt : Rat) (player : Option PlayerRec)
        (probe : Option Probe),
      (e.takeDamage amount).update sqrtQ dt player probe = (e.takeDamage amount, player)) := by
  have hh : (e.takeDamage amount).health = 0 := by
    simp only [EnemyRec.takeDamage]
    exact max_eq_left (by linarith)
  have hs : (e.takeDamage amount).state = EnemyState.DEAD := by
    simp only [EnemyRec.takeDamage]
    rw [if_pos (max_le le_rfl (by linarith))]
  have hal : (e.takeDamage amount).isAlive = false := by
    simp only [EnemyRec.isAlive, hh]
    norm_num
  refine ⟨hh, hs, hal, ?_⟩
  intro sqrtQ dt player probe
  simp only [EnemyRec.update, hal]
  simp

/-- Witness for claim C8 at the default enemy and a lethal hit of 50. -/
theorem enemy_death_update_noop_witness :
    (defaultEnemy.takeDamage 50).health = 0 ∧
    (defaultEnemy.takeDamage 50).state = EnemyState.DEAD ∧
    (defaultEnemy.takeDamage 50).isAlive = false ∧
    (defaultEnemy.takeDamage 50).update (fun q => q) 1 (some cPlayerA) none =
      (defaultEnemy.takeDamage 50, some cPlayerA) := by
  have h := enemy_death_update_noop defaultEnemy 50 (by norm_num [defaultEnemy])
  exact ⟨h.1, h.2.1, h.2.2.1, h.2.2.2 (fun q => q) 1 (some cPlayerA) none⟩

/-- Counterexample to claim C3: an enemy killed by `takeDamage` is DEAD,
yet after a subsequent `update` its `active` flag is still true (the
update early-returns on dead enemies before reaching the branch that
would deactivate them), and a later health-setter write can raise health
above 0 while the state stays DEAD, breaking the claimed biconditional
`state = DEAD ⟺ health ≤ 0`. -/
theorem enemy_dead_invariant_counterexample :
    (defaultEnemy.takeDamage 50).state = EnemyState.DEAD ∧
    ((defaultEnemy.takeDamage 50).update (fun q => q) 1 (some cPlayerA) none).1.active = true ∧
    ((defaultEnemy.takeDamage 50).setHealth 30).state = EnemyState.DEAD ∧
    ((defaultEnemy.takeDamage 50).setHealth 30).health = 30 := by
  have hh : (defaultEnemy.takeDamage 50).health = 0 := by
    simp only [EnemyRec.takeDamage, defaultEnemy]
    norm_num
  have hal : (defaultEnemy.takeDamage 50).isAlive = false := by
    simp only [EnemyRec.isAlive, hh]
    norm_num
  have hs : (defaultEnemy.takeDamage 50).state = EnemyState.DEAD := by
    simp only [EnemyRec.takeDamage, defaultEnemy]
    norm_num
  refine ⟨hs, ?_, ?_, ?_⟩
  · simp only [EnemyRec.update, hal]
    simp [EnemyRec.takeDamage, defaultEnemy]
  · simp only [EnemyRec.setHealth, hh, hs]
    have : (defaultEnemy.takeDamage 50).maxHealth = 50 := by
      simp [EnemyRec.takeDamage, defaultEnemy]
    rw [this]
    norm_num
  · simp only [EnemyRec.setHealth, hh]
    have : (defaultEnemy.takeDamage 50).maxHealth = 50 := by
      simp [EnemyRec.takeDamage, defaultEnemy]
    rw [this]
    norm_num

/-- Claim C3 (amended): `takeDamage` and the health setter transition to
DEAD whenever the resulting health is ≤ 0; once DEAD the state never
changes again under `update`, `takeDamage` or health writes; `update` on
a DEAD enemy with health ≤ 0 is a no-op (in particular `active` is NOT
cleared — deactivation only happens in the unreachable-for-dead-health
case of a DEAD enemy with positive health). -/
theorem enemy_dead_invariant (e : EnemyRec) (a v : Rat) :
    ((e.takeDamage a).health ≤ 0 → (e.takeDamage a).state = EnemyState.DEAD) ∧
    ((e.setHealth v).health ≤ 0 → (e.setHealth v).state = EnemyState.DEAD) ∧
    (e.state = EnemyState.DEAD → (e.takeDamage a).state = EnemyState.DEAD) ∧
    (e.state = EnemyState.DEAD → (e.setHealth v).state = EnemyState.DEAD) ∧
    (∀ (sqrtQ : Rat → Rat) (dt : Rat) (player : Option PlayerRec)
        (probe : Option Probe), e.state = EnemyState.DEAD →
      ((e.update sqrtQ dt player probe).1.state = EnemyState.DEAD ∧
        (e.health ≤ 0 → e.update sqrtQ dt player probe = (e, player)) ∧
        (e.active = true → 0 < e.health →
          (e.update sqrtQ dt player probe).1.active = false))) := by
  refine ⟨?_, ?_, ?_, ?_, ?_⟩
  · intro h
    simp only [EnemyRec.takeDamage] at h ⊢
    rw [if_pos h]
  · intro h
    simp only [EnemyRec.setHealth] at h ⊢
    rw [if_pos h]
  · intro h
    simp only [EnemyRec.takeDamage]
    split
    · rfl
    · exact h
  · intro h
    simp only [EnemyRec.setHealth]
    split
    · rfl
    · exact h
  · intro sqrtQ dt player probe hdead
    by_cases hh : e.health ≤ 0
    · have hal : e.isAlive = false := by
        simp only [EnemyRec.isAlive]
        simpa using not_lt.mpr hh
      have : e.update sqrtQ dt player probe = (e, player) := by
        simp only [EnemyRec.update, hal]
        simp
      exact ⟨by rw [this]; exact hdead, fun _ => this, fun _ hpos => absurd hpos (by linarith)⟩
    · push_neg at hh
      have hal : e.isAlive = true := by
        simp only [EnemyRec.isAlive]
        simpa using hh
      refine ⟨?_, fun hcon => absurd hcon (by linarith), fun hact _ => ?_⟩
      · by_cases hact : e.active = true
        · simp only [EnemyRec.update, hal, hact, hdead]
          simp
        · have : e.active = false := by
            cases h : e.active
            · rfl
            · exact absurd h hact
          simp only [EnemyRec.update, this]
          simpa using hdead
      · simp only [EnemyRec.update, hal, hact, hdead]
        simp

/-- Witness for claim C3 (amended), at the default enemy killed by a
lethal hit, with concrete update arguments. -/
theorem enemy_dead_invariant_witness :
    ((defaultEnemy.takeDamage 50).takeDamage 10).state = EnemyState.DEAD ∧
    ((defaultEnemy.takeDamage 50).update (fun q => q) 1 (some cPlayerA) none).1.state =
      EnemyState.DEAD := by
  have hh : (defaultEnemy.takeDamage 50).health ≤ 0 := by
    simp [EnemyRec.takeDamage, defaultEnemy]
  have hs : (defaultEnemy.takeDamage 50).state = EnemyState.DEAD := by
    simp only [EnemyRec.takeDamage, defaultEnemy]
    norm_num
  have h := enemy_dead_invariant (defaultEnemy.takeDamage 50) 10 30
  exact ⟨h.2.2.1 hs, (h.2.2.2.2 (fun q => q) 1 (some cPlayerA) none hs).1⟩

/-- A uniform draw `Math.floor(Math.random() * length)` with `r ∈ [0, 1)`
lands strictly below `length`. -/
theorem rand_index_lt (r : Rat) (n : Nat) (h1 : r < 1) (hn : 0 < n) :
    (⌊r * (n : Rat)⌋).toNat < n := by
  have hlt : ⌊r * (n : Rat)⌋ < (n : Int) := by
    apply Int.floor_lt.mpr
    push_cast
    calc r * (n : Rat) < 1 * (n : Rat) :=
          mul_lt_mul_of_pos_right h1 (by exact_mod_cast hn)
      _ = (n : Rat) := one_mul _
  omega

/-- Claim C7: `spawnEnemy` returns none and leaves the enemy collection
unchanged when the spawn-point list is empty, no factories are
registered, or the live count is at or above `maxConcurrentEnemies`;
otherwise it picks one spawn point and one factory (by the two
independent uniform draws) and appends the freshly built enemy to the
collection. -/
theorem spawn_enemy_spec :
    (∀ (em : EMState) (enemies : List EnemyRec) (r1 r2 : Rat),
      em.spawnPoints.length = 0 ∨ em.enemyFactories.length = 0 ∨
        em.maxConcurrentEnemies ≤ enemies.length →
      spawnEnemy em enemies r1 r2 = (none, enemies)) ∧
    (∀ (em : EMState) (enemies : List EnemyRec) (r1 r2 : Rat),
      em.spawnPoints.length ≠ 0 → em.enemyFactories.length ≠ 0 →
      enemies.length < em.maxConcurrentEnemies →
      0 ≤ r1 → r1 < 1 → 0 ≤ r2 → r2 < 1 →
      ∃ sp ∈ em.spawnPoints, ∃ f ∈ em.enemyFactories,
        spawnEnemy em enemies r1 r2 = (some (f sp.1 sp.2), enemies ++ [f sp.1 sp.2])) := by
  constructor
  · intro em enemies r1 r2 hfail
    by_cases hempty : em.spawnPoints.length = 0 ∨ em.enemyFactories.length = 0
    · simp only [spawnEnemy, if_pos hempty]
    · rcases hfail with h | h | h
      · exact absurd (Or.inl h) hempty
      · exact absurd (Or.inr h) hempty
      · simp only [spawnEnemy, if_neg hempty, if_pos h]
  · intro em enemies r1 r2 hsp hf hcount hr10 hr11 hr20 hr21
    have hi1 : (⌊r1 * (em.spawnPoints.length : Rat)⌋).toNat < em.spawnPoints.length :=
      rand_index_lt r1 _ hr11 (Nat.pos_of_ne_zero hsp)
    have hi2 : (⌊r2 * (em.enemyFactories.length : Rat)⌋).toNat < em.enemyFactories.length :=
      rand_index_lt r2 _ hr21 (Nat.pos_of_ne_zero hf)
    refine ⟨em.spawnPoints.getD (⌊r1 * (em.spawnPoints.length : Rat)⌋).toNat (0, 0), ?_,
      em.enemyFactories.getD (⌊r2 * (em.enemyFactories.length : Rat)⌋).toNat
        (fun _ _ => defaultEnemy), ?_, ?_⟩
    · rw [List.getD_eq_getElem _ _ hi1]
      exact List.getElem_mem hi1
    · rw [List.getD_eq_getElem _ _ hi2]
      exact List.getElem_mem hi2
    · simp only [spawnEnemy, if_neg (not_or.mpr ⟨hsp, hf⟩), if_neg (not_le.mpr hcount)]

/-- A concrete enemy factory used by witnesses. -/
def cFactory : Rat → Rat → EnemyRec :=
  fun x y => { defaultEnemy with x := x, y := y }

/-- A concrete enemy-manager state with one spawn point, one factory and
a cap of 3 concurrent enemies. -/
def cEM : EMState :=
  { spawnPoints := [(32, 64)], enemyFactories := [cFactory],
    waveCount := 0, enemiesPerWave := 3, timeBetweenWaves := 30,
    waveTimer := 5, maxConcurrentEnemies := 3 }

/-- Witness for claim C7: at the cap (5 live enemies, cap 3) nothing is
spawned and the collection is unchanged; below the cap the single spawn
point and factory produce the appended enemy. -/
theorem spawn_enemy_spec_witness :
    spawnEnemy cEM (List.replicate 5 defaultEnemy) (1/2) (1/3) =
      (none, List.replicate 5 defaultEnemy) ∧
    spawnEnemy cEM [] (1/2) (1/3) = (some (cFactory 32 64), [cFactory 32 64]) := by
  constructor
  · exact spawn_enemy_spec.1 cEM (List.replicate 5 defaultEnemy) (1/2) (1/3)
      (Or.inr (Or.inr (by simp [cEM])))
  · obtain ⟨sp, hsp, f, hf, heq⟩ := spawn_enemy_spec.2 cEM [] (1/2) (1/3)
      (by simp [cEM]) (by simp [cEM]) (by simp [cEM]) (by norm_num) (by norm_num)
      (by norm_num) (by norm_num)
    rw [show cEM.spawnPoints = [(32, 64)] from rfl, List.mem_singleton] at hsp
    rw [show cEM.enemyFactories = [cFactory] from rfl, List.mem_singleton] at hf
    subst hsp
    subst hf
    simpa using heq

/-- The accumulated horizontal delta equals right-minus-left. -/
theorem movementDelta_fst (input : PlayerInput) (m : Rat) (dir0 : Direction) :
    (movementDelta input m dir0).1 =
      (if input.right = true then m else 0) - (if input.left = true then m else 0) := by
  rcases input with ⟨u, d, l, r, ac, k1, k2, k3, k4⟩
  cases u <;> cases d <;> cases l <;> cases r <;> simp [movementDelta] <;> ring

/-- The accumulated vertical delta equals down-minus-up. -/
theorem movementDelta_snd (input : PlayerInput) (m : Rat) (dir0 : Direction) :
    (movementDelta input m dir0).2.1 =
      (if input.down = true then m else 0) - (if input.up = true then m else 0) := by
  rcases input with ⟨u, d, l, r, ac, k1, k2, k3, k4⟩
  cases u <;> cases d <;> cases l <;> cases r <;> simp [movementDelta] <;> ring

/-- `useSkill` only touches the skill slots: position is unchanged. -/
theorem useSkill_x (p : PlayerRec) (slot : Nat) (now : Rat) (en : Option (List EnemyRec)) :
    (useSkill p slot now en).2.1.x = p.x := by
  unfold useSkill
  split
  · rfl
  · split
    · rfl
    · rfl

/-- `useSkill` only touches the skill slots: position is unchanged. -/
theorem useSkill_y (p : PlayerRec) (slot : Nat) (now : Rat) (en : Option (List EnemyRec)) :
    (useSkill p slot now en).2.1.y = p.y := by
  unfold useSkill
  split
  · rfl
  · split
    · rfl
    · rfl

/-- Each dispatch step preserves the player's position. -/
theorem dispatchSkill1_pos (pe : PlayerRec × Option (List EnemyRec)) (now : Rat) :
    (dispatchSkill1 pe now).1.x = pe.1.x ∧ (dispatchSkill1 pe now).1.y = pe.1.y := by
  unfold dispatchSkill1
  split
  · exact ⟨useSkill_x pe.1 0 now pe.2, useSkill_y pe.1 0 now pe.2⟩
  · exact ⟨rfl, rfl⟩

/-- Each dispatch step preserves the player's position. -/
theorem dispatchSkill2_pos (pe : PlayerRec × Option (List EnemyRec)) (now : Rat) :
    (dispatchSkill2 pe now).1.x = pe.1.x ∧ (dispatchSkill2 pe now).1.y = pe.1.y := by
  unfold dispatchSkill2
  split
  · exact ⟨useSkill_x pe.1 1 now pe.2, useSkill_y pe.1 1 now pe.2⟩
  · exact ⟨rfl, rfl⟩

/-- Each dispatch step preserves the player's position. -/
theorem dispatchSkill3_pos (pe : PlayerRec × Option (List EnemyRec)) (now : Rat) :
    (dispatchSkill3 pe now).1.x = pe.1.x ∧ (dispatchSkill3 pe now).1.y = pe.1.y := by
  unfold dispatchSkill3
  split
  · exact ⟨useSkill_x pe.1 2 now pe.2, useSkill_y pe.1 2 now pe.2⟩
  · exact ⟨rfl, rfl⟩

/-- Each dispatch step preserves the player's position. -/
theorem dispatchSkill4_pos (pe : PlayerRec × Option (List EnemyRec)) (now : Rat) :
    (dispatchSkill4 pe now).1.x = pe.1.x ∧ (dispatchSkill4 pe now).1.y = pe.1.y := by
  unfold dispatchSkill4
  split
  · exact ⟨useSkill_x pe.1 3 now pe.2, useSkill_y pe.1 3 now pe.2⟩
  · exact ⟨rfl, rfl⟩

/-- Skill dispatch never moves the player. -/
theorem dispatchSkills_x (p : PlayerRec) (en : Option (List EnemyRec)) (now : Rat) :
    (dispatchSkills p en now).1.x = p.x := by
  unfold dispatchSkills
  rw [(dispatchSkill4_pos _ now).1, (dispatchSkill3_pos _ now).1,
    (dispatchSkill2_pos _ now).1, (dispatchSkill1_pos _ now).1]

/-- Skill dispatch never moves the player. -/
theorem dispatchSkills_y (p : PlayerRec) (en : Option (List EnemyRec)) (now : Rat) :
    (dispatchSkills p en now).1.y = p.y := by
  unfold dispatchSkills
  rw [(dispatchSkill4_pos _ now).2, (dispatchSkill3_pos _ now).2,
    (dispatchSkill2_pos _ now).2, (dispatchSkill1_pos _ now).2]

/-- Core characterization of the movement step of `Player.update` with a
probe supplied: X is tentatively moved and kept only when the probe is
clear, then Y likewise against the possibly-updated X. -/
theorem player_update_move (p : PlayerRec) (dt now : Rat) (ck : Probe)
    (enemies : Option (List EnemyRec)) (hasCtx : Bool)
    (hactive : p.active = true) (halive : 0 < p.health)
    (dx dy : Rat)
    (hdx : dx = (if p.input.right = true then p.speed * 60 * dt else 0) -
      (if p.input.left = true then p.speed * 60 * dt else 0))
    (hdy : dy = (if p.input.down = true then p.speed * 60 * dt else 0) -
      (if p.input.up = true then p.speed * 60 * dt else 0))
    (hmove : ¬(dx = 0 ∧ dy = 0)) :
    (p.update dt (some ck) enemies hasCtx now).1.x =
      (if ck (p.x + dx) p.y p.width p.height = true then p.x else p.x + dx) ∧
    (p.update dt (some ck) enemies hasCtx now).1.y =
      (if ck (if ck (p.x + dx) p.y p.width p.height = true then p.x else p.x + dx)
            (p.y + dy) p.width p.height = true
        then p.y else p.y + dy) := by
  have halB : p.isAlive = true := by
    simp [PlayerRec.isAlive, halive]
  have hxeq := movementDelta_fst p.input (p.speed * 60 * dt) p.direction
  have hyeq := movementDelta_snd p.input (p.speed * 60 * dt) p.direction
  rw [← hdx] at hxeq
  rw [← hdy] at hyeq
  have hcond : (movementDelta p.input (p.speed * 60 * dt) p.direction).1 ≠ 0 ∨
      (movementDelta p.input (p.speed * 60 * dt) p.direction).2.1 ≠ 0 := by
    rw [hxeq, hyeq]
    tauto
  have hcond2 : dx ≠ 0 ∨ dy ≠ 0 := by tauto
  simp only [PlayerRec.update, hactive, halB, Bool.not_true, Bool.or_self, Bool.false_eq_true,
    if_false, hxeq, hyeq, if_pos hcond2]
  cases hasCtx with
  | true =>
    simp only [eq_self_iff_true, if_true]
    rw [dispatchSkills_x, dispatchSkills_y]
    cases hbx : ck (p.x + dx) p.y p.width p.height with
    | false =>
      simp only [hbx, Bool.not_false, if_true]
      cases hby : ck (p.x + dx) (p.y + dy) p.width p.height <;>
        simp [hbx, hby]
    | true =>
      simp only [hbx, Bool.not_true, Bool.false_eq_true, if_false]
      cases hby : ck p.x (p.y + dy) p.width p.height <;>
        simp [hbx, hby]
  | false =>
    simp only [Bool.false_eq_true, if_false]
    cases hbx : ck (p.x + dx) p.y p.width p.height with
    | false =>
      simp only [hbx, Bool.not_false, if_true]
      cases hby : ck (p.x + dx) (p.y + dy) p.width p.height <;>
        simp [hbx, hby]
    | true =>
      simp only [hbx, Bool.not_true, Bool.false_eq_true, if_false]
      cases hby : ck p.x (p.y + dy) p.width p.height <;>
        simp [hbx, hby]

/-- Claim C2 (amended): with a probe supplied and a nonzero accumulated
delta, X moves to `x+dx` exactly when probing `(x+dx, y)` is clear, then
Y moves to `y+dy` exactly when probing `(updated x, y+dy)` is clear; in
particular when the X-move probe reports a collision but the dy-only
probe is clear, Y changes while X stays (wall sliding).  The original
claim conditioned the sliding on the combined `(dx, dy)` move colliding,
which the code does not guarantee. -/
theorem player_axis_separated_movement (p : PlayerRec) (dt now : Rat) (ck : Probe)
    (enemies : Option (List EnemyRec)) (hasCtx : Bool)
    (hactive : p.active = true) (halive : 0 < p.health)
    (dx dy : Rat)
    (hdx : dx = (if p.input.right = true then p.speed * 60 * dt else 0) -
      (if p.input.left = true then p.speed * 60 * dt else 0))
    (hdy : dy = (if p.input.down = true then p.speed * 60 * dt else 0) -
      (if p.input.up = true then p.speed * 60 * dt else 0))
    (hmove : ¬(dx = 0 ∧ dy = 0)) :
    ((p.update dt (some ck) enemies hasCtx now).1.x =
      if ck (p.x + dx) p.y p.width p.height = true then p.x else p.x + dx) ∧
    ((p.update dt (some ck) enemies hasCtx now).1.y =
      if ck ((p.update dt (some ck) enemies hasCtx now).1.x) (p.y + dy) p.width p.height = true
      then p.y else p.y + dy) ∧
    (ck (p.x + dx) p.y p.width p.height = true →
      ck p.x (p.y + dy) p.width p.height = false →
      (p.update dt (some ck) enemies hasCtx now).1.x = p.x ∧
      (p.update dt (some ck) enemies hasCtx now).1.y = p.y + dy) := by
  obtain ⟨hx, hy⟩ :=
    player_update_move p dt now ck enemies hasCtx hactive halive dx dy hdx hdy hmove
  refine ⟨hx, ?_, ?_⟩
  · rw [hy, hx]
  · intro hbx hby
    have hx2 : (p.update dt (some ck) enemies hasCtx now).1.x = p.x := by
      rw [hx, if_pos hbx]
    refine ⟨hx2, ?_⟩
    rw [hy, if_pos hbx, hby]
    simp

/-- A probe that only reports a collision in the open quadrant with both
coordinates positive: it blocks the combined diagonal move of the
counterexample but neither single-axis move. -/
def cProbeDiag : Probe := fun px py _ _ => decide (0 < px) && decide (0 < py)

/-- A player at the origin holding right+down, used by the C2
counterexample. -/
def cPlayerB : PlayerRec :=
  { x := 0, y := 0, width := 10, height := 10, speed := 1,
    direction := Direction.DOWN, active := true, health := 100, maxHealth := 100,
    input := { noInput with right := true, down := true }, skillSlots := [] }

/-- Counterexample to claim C2: the combined (dx, dy) = (60, 60) move
collides under `cProbeDiag` and the dy-only move does not, yet after the
update X changed (to 60) and Y stayed 0 — the opposite of the claimed
"Y changes while X stays unchanged". -/
theorem player_sliding_counterexample :
    cProbeDiag (0 + 60) (0 + 60) 10 10 = true ∧
    cProbeDiag 0 (0 + 60) 10 10 = false ∧
    (cPlayerB.update 1 (some cProbeDiag) none false 0).1.x = 60 ∧
    (cPlayerB.update 1 (some cProbeDiag) none false 0).1.y = 0 := by
  have hc1 : cProbeDiag (0 + 60) (0 + 60) 10 10 = true := by
    simp only [cProbeDiag]
    norm_num
  have hc2 : cProbeDiag 0 (0 + 60) 10 10 = false := by
    simp only [cProbeDiag]
    norm_num
  obtain ⟨hx, hy⟩ := player_update_move cPlayerB 1 0 cProbeDiag none false
    rfl (by norm_num [cPlayerB]) 60 60
    (by norm_num [cPlayerB, noInput]) (by norm_num [cPlayerB, noInput]) (by norm_num)
  have hxprobe : cProbeDiag (cPlayerB.x + 60) cPlayerB.y cPlayerB.width cPlayerB.height =
      false := by
    simp only [cProbeDiag, cPlayerB]
    norm_num
  have hx60 : (cPlayerB.update 1 (some cProbeDiag) none false 0).1.x = 60 := by
    rw [hx, hxprobe]
    norm_num [cPlayerB]
  refine ⟨hc1, hc2, hx60, ?_⟩
  rw [hy, hxprobe]
  have : cProbeDiag (cPlayerB.x + 60) (cPlayerB.y + 60) cPlayerB.width cPlayerB.height =
      true := by
    simp only [cProbeDiag, cPlayerB]
    norm_num
  simp only [Bool.false_eq_true, if_false, this, if_true, cPlayerB]
  rw [if_pos hc1]

/-- A probe modelling a wall just right of the player: any rectangle
with left edge beyond 5 collides. -/
def cProbeWall : Probe := fun px _ _ _ => decide (5 < px)

/-- Witness for claim C2 (amended): against the wall probe with right
and down held, X stays at 0 while Y moves to 60. -/
theorem player_axis_separated_movement_witness :
    (cPlayerB.update 1 (some cProbeWall) none false 0).1.x = 0 ∧
    (cPlayerB.update 1 (some cProbeWall) none false 0).1.y = 60 := by
  have h := player_axis_separated_movement cPlayerB 1 0 cProbeWall none false
    rfl (by norm_num [cPlayerB]) 60 60
    (by norm_num [cPlayerB, noInput]) (by norm_num [cPlayerB, noInput]) (by norm_num)
  have hbx : cProbeWall (cPlayerB.x + 60) cPlayerB.y cPlayerB.width cPlayerB.height = true := by
    simp only [cProbeWall, cPlayerB]
    norm_num
  have hby : cProbeWall cPlayerB.x (cPlayerB.y + 60) cPlayerB.width cPlayerB.height = false := by
    simp only [cProbeWall, cPlayerB]
    norm_num
  obtain ⟨hx0, hy0⟩ := h.2.2 hbx hby
  constructor
  · rw [hx0]
    norm_num [cPlayerB]
  · rw [hy0]
    norm_num [cPlayerB]

/-- Normalized-step algebra: moving by `m` along the unit vector
`(a, b) / s` with `s * s = a² + b²`, `s ≠ 0`, covers squared distance
`m²`. -/
theorem normalized_step_sq (a b s m : Rat) (hs : s ≠ 0) (h : a * a + b * b = s * s) :
    (a / s * m) ^ 2 + (b / s * m) ^ 2 = m ^ 2 := by
  have hrearrange : (a / s * m) ^ 2 + (b / s * m) ^ 2 = (a * a + b * b) / (s * s) * m ^ 2 := by
    ring
  rw [hrearrange, h, div_self (mul_ne_zero hs hs), one_mul]

/-- A concrete chasing enemy at the origin with unit speed factors. -/
def cEnemyChase : EnemyRec :=
  { defaultEnemy with x := 0, y := 0, speed := 1, baseSpeed := 1, chaseSpeed := 1 }

/-- A concrete alive player 100 px to the right of the origin. -/
def cPlayerC : PlayerRec := { cPlayerA with x := 100, y := 0 }

/-- A square root valid at the one argument the C9 counterexample needs. -/
def sqrtC9 : Rat → Rat := fun q => if q = 10000 then 100 else 0

/-- Counterexample to claim C9: a chase-movement step with speed 1 over
deltaTime 1 moves the enemy by `speed * deltaTime = 1` pixel, not by
`speed * 60 * deltaTime = 60` pixels as claimed. -/
theorem speed_denomination_counterexample :
    (cEnemyChase.moveTowardPlayer sqrtC9 cPlayerC 1 1).x = 1 ∧
    cEnemyChase.x + 1 * 60 * 1 = 60 ∧ (1 : Rat) ≠ 60 := by
  refine ⟨?_, by norm_num [cEnemyChase, defaultEnemy], by norm_num⟩
  have halive : cPlayerC.isAlive = true := by
    simp [PlayerRec.isAlive, cPlayerC, cPlayerA]
  have harg : (cPlayerC.x - cEnemyChase.x) * (cPlayerC.x - cEnemyChase.x) +
      (cPlayerC.y - cEnemyChase.y) * (cPlayerC.y - cEnemyChase.y) = 10000 := by
    norm_num [cPlayerC, cPlayerA, cEnemyChase, defaultEnemy]
  have hsq : sqrtC9 ((cPlayerC.x - cEnemyChase.x) * (cPlayerC.x - cEnemyChase.x) +
      (cPlayerC.y - cEnemyChase.y) * (cPlayerC.y - cEnemyChase.y)) = 100 := by
    rw [harg]
    simp [sqrtC9]
  simp only [EnemyRec.moveTowardPlayer, halive, Bool.not_true, Bool.false_eq_true, if_false,
    hsq]
  rw [if_neg (by norm_num)]
  simp only [cEnemyChase, cPlayerC, cPlayerA, defaultEnemy]
  norm_num

/-- Claim C9 (amended): the player's movement step is denominated in
pixels per nominal 60 Hz tick (`speed * 60 * deltaTime`), but enemy
movement is not: both chase movement (`moveTowardPlayer`) and patrol
movement cover exactly `speed * deltaTime` pixels (squared displacement
`(speed * deltaTime)²`), with no 60 factor. -/
theorem speed_denomination :
    (∀ (p : PlayerRec) (dt now : Rat) (ck : Probe) (enemies : Option (List EnemyRec))
        (hasCtx : Bool),
      p.active = true → 0 < p.health →
      p.input.right = true → p.input.left = false →
      p.input.up = false → p.input.down = false →
      p.speed * 60 * dt ≠ 0 →
      ck (p.x + p.speed * 60 * dt) p.y p.width p.height = false →
      (p.update dt (some ck) enemies hasCtx now).1.x = p.x + p.speed * 60 * dt ∧
      (p.update dt (some ck) enemies hasCtx now).1.y = p.y) ∧
    (∀ (e : EnemyRec) (p : PlayerRec) (sqrtQ : Rat → Rat) (dt spd : Rat),
      p.isAlive = true →
      0 < sqrtQ ((p.x - e.x) * (p.x - e.x) + (p.y - e.y) * (p.y - e.y)) →
      sqrtQ ((p.x - e.x) * (p.x - e.x) + (p.y - e.y) * (p.y - e.y)) *
          sqrtQ ((p.x - e.x) * (p.x - e.x) + (p.y - e.y) * (p.y - e.y)) =
        (p.x - e.x) * (p.x - e.x) + (p.y - e.y) * (p.y - e.y) →
      ((e.moveTowardPlayer sqrtQ p dt spd).x - e.x) ^ 2 +
          ((e.moveTowardPlayer sqrtQ p dt spd).y - e.y) ^ 2 = (spd * dt) ^ 2) ∧
    (∀ (e : EnemyRec) (sqrtQ : Rat → Rat) (dt tx ty : Rat),
      e.patrolPoints.getD e.currentPatrolIndex (0, 0) = (tx, ty) →
      e.patrolPoints.length ≠ 0 → ¬(0 < e.patrolTimer) →
      ¬((tx - e.x) * (tx - e.x) + (ty - e.y) * (ty - e.y) < 25) →
      0 < sqrtQ ((tx - e.x) * (tx - e.x) + (ty - e.y) * (ty - e.y)) →
      sqrtQ ((tx - e.x) * (tx - e.x) + (ty - e.y) * (ty - e.y)) *
          sqrtQ ((tx - e.x) * (tx - e.x) + (ty - e.y) * (ty - e.y)) =
        (tx - e.x) * (tx - e.x) + (ty - e.y) * (ty - e.y) →
      ((e.patrol sqrtQ dt none).x - e.x) ^ 2 + ((e.patrol sqrtQ dt none).y - e.y) ^ 2 =
        (e.speed * dt) ^ 2) := by
  refine ⟨?_, ?_, ?_⟩
  · intro p dt now ck enemies hasCtx hactive halive hr hl hu hd hm hck
    obtain ⟨hx, hy⟩ := player_update_move p dt now ck enemies hasCtx hactive halive
      (p.speed * 60 * dt) 0
      (by rw [hr, hl]; norm_num)
      (by rw [hu, hd]; norm_num)
      (by tauto)
    constructor
    · rw [hx, hck]
      simp
    · rw [hy, hck]
      simp only [Bool.false_eq_true, if_false, add_zero, hck]
  · intro e p sqrtQ dt spd halive hpos hsq
    simp only [EnemyRec.moveTowardPlayer, halive, Bool.not_true, Bool.false_eq_true, if_false,
      if_neg (not_le.mpr hpos)]
    linear_combination normalized_step_sq (p.x - e.x) (p.y - e.y)
      (sqrtQ ((p.x - e.x) * (p.x - e.x) + (p.y - e.y) * (p.y - e.y))) (spd * dt)
      (ne_of_gt hpos) hsq.symm
  · intro e sqrtQ dt tx ty htarget hlen htimer hfar hpos hsq
    simp only [EnemyRec.patrol, if_neg hlen, if_neg htimer, htarget, if_neg hfar,
      eq_self_iff_true, if_true]
    linear_combination normalized_step_sq (tx - e.x) (ty - e.y)
      (sqrtQ ((tx - e.x) * (tx - e.x) + (ty - e.y) * (ty - e.y))) (e.speed * dt)
      (ne_of_gt hpos) hsq.symm

/-- A player holding only the right key. -/
def cPlayerD : PlayerRec := { cPlayerA with input := { noInput with right := true } }

/-- A probe that never reports a collision. -/
def probeClear : Probe := fun _ _ _ _ => false

/-- An alive player at (3, 4), a 3-4-5 triangle from the origin. -/
def cPlayerF : PlayerRec := { cPlayerA with x := 3, y := 4 }

/-- A square root valid at 25, for the 3-4-5 chase witness. -/
def sqrtW : Rat → Rat := fun q => if q = 25 then 5 else 0

/-- A patrolling enemy at the origin heading for the waypoint (100, 0). -/
def cEnemyPatrol : EnemyRec :=
  { defaultEnemy with
      x := 0, y := 0, speed := 10,
      patrolPoints := [(100, 0)], currentPatrolIndex := 0, patrolTimer := 0 }

/-- A square root valid at 10000, for the patrol witness. -/
def sqrtP : Rat → Rat := fun q => if q = 10000 then 100 else 0

/-- Witness for claim C9 (amended): the player covers
`speed * 60 * deltaTime = 120` pixels, while the chasing enemy covers
`spd * deltaTime` (squared 4) and the patrolling enemy covers
`speed * deltaTime` (squared 100). -/
theorem speed_denomination_witness :
    (cPlayerD.update 1 (some probeClear) none false 0).1.x =
      cPlayerD.x + cPlayerD.speed * 60 * 1 ∧
    ((cEnemyChase.moveTowardPlayer sqrtW cPlayerF 1 2).x - cEnemyChase.x) ^ 2 +
      ((cEnemyChase.moveTowardPlayer sqrtW cPlayerF 1 2).y - cEnemyChase.y) ^ 2 = (2 * 1) ^ 2 ∧
    ((cEnemyPatrol.patrol sqrtP 1 none).x - cEnemyPatrol.x) ^ 2 +
      ((cEnemyPatrol.patrol sqrtP 1 none).y - cEnemyPatrol.y) ^ 2 =
      (cEnemyPatrol.speed * 1) ^ 2 := by
  refine ⟨?_, ?_, ?_⟩
  · exact (speed_denomination.1 cPlayerD 1 0 probeClear none false
      rfl (by norm_num [cPlayerD, cPlayerA]) rfl rfl rfl rfl
      (by norm_num [cPlayerD, cPlayerA]) rfl).1
  · exact speed_denomination.2.1 cEnemyChase cPlayerF sqrtW 1 2
      (by simp [PlayerRec.isAlive, cPlayerF, cPlayerA])
      (by norm_num [cPlayerF, cPlayerA, cEnemyChase, defaultEnemy, sqrtW])
      (by norm_num [cPlayerF, cPlayerA, cEnemyChase, defaultEnemy, sqrtW])
  · exact speed_denomination.2.2 cEnemyPatrol sqrtP 1 100 0
      (by simp [cEnemyPatrol])
      (by simp [cEnemyPatrol])
      (by norm_num [cEnemyPatrol, defaultEnemy])
      (by norm_num [cEnemyPatrol, defaultEnemy])
      (by norm_num [cEnemyPatrol, defaultEnemy, sqrtP])
      (by norm_num [cEnemyPatrol, defaultEnemy, sqrtP])

/-- A chasing enemy at (0, 40) with chase speed 40, aimed across the
sample map's TREE tile. -/
def cEnemyChase2 : EnemyRec :=
  { defaultEnemy with
      x := 0, y := 40, speed := 40, baseSpeed := 40, chaseSpeed := 1,
      state := EnemyState.CHASING }

/-- An alive player at (64, 40), within detection range but outside
attack range of `cEnemyChase2`. -/
def cPlayerG : PlayerRec := { cPlayerA with x := 64, y := 40 }

/-- A square root valid at 4096, for the C10 chase-onto-tree instance. -/
def sqrtC10 : Rat → Rat := fun q => if q = 4096 then 64 else 0

/-- A probe that always reports a collision. -/
def probeAll : Probe := fun _ _ _ _ => true

/-- Claim C10: chase movement is not collision-checked — an enemy update
in CHASING state is independent of the supplied probe, and a concrete
chasing enemy steps onto TREE-covered coordinates of the sample map;
patrol movement, in contrast, does consult the probe (an all-blocking
probe freezes the patrol step a clear probe performs). -/
theorem chase_ignores_collision_probe :
    (∀ (e : EnemyRec) (sqrtQ : Rat → Rat) (dt : Rat) (player : Option PlayerRec)
        (probe1 probe2 : Option Probe),
      e.state = EnemyState.CHASING →
      e.update sqrtQ dt player probe1 = e.update sqrtQ dt player probe2) ∧
    ((cEnemyChase2.update sqrtC10 1 (some cPlayerG)
        (some fun x y w h => checkCollisionWithMap x y w h sampleMap)).1.x = 40 ∧
      (cEnemyChase2.update sqrtC10 1 (some cPlayerG)
        (some fun x y w h => checkCollisionWithMap x y w h sampleMap)).1.y = 40 ∧
      checkCollisionWithMap 40 40 16 16 sampleMap = true) ∧
    ((cEnemyPatrol.patrol sqrtP 1 (some probeAll)).x = 0 ∧
      (cEnemyPatrol.patrol sqrtP 1 (some probeClear)).x = 10) := by
  refine ⟨?_, ?_, ?_⟩
  · intro e sqrtQ dt player probe1 probe2 hst
    rcases e with ⟨x, y, w, hh, sp, dir, act, hl, mh, ad, ar, dr, st, ag, cs, bs, pp, ci, pw, pt⟩
    simp only at hst
    subst hst
    rfl
  · have hpalive : cPlayerG.isAlive = true := by
      norm_num [PlayerRec.isAlive, cPlayerG, cPlayerA]
    have hactive : cEnemyChase2.active = true := rfl
    have halive : cEnemyChase2.isAlive = true := by
      norm_num [EnemyRec.isAlive, cEnemyChase2, defaultEnemy]
    have hstate : cEnemyChase2.state = EnemyState.CHASING := rfl
    have hdetect : cEnemyChase2.canDetectPlayer cPlayerG = true := by
      simp only [EnemyRec.canDetectPlayer, hpalive, Bool.true_and]
      norm_num [cEnemyChase2, defaultEnemy, cPlayerG, cPlayerA]
    have hattack : cEnemyChase2.canAttackPlayer cPlayerG = false := by
      simp only [EnemyRec.canAttackPlayer, hpalive, Bool.true_and]
      norm_num [cEnemyChase2, defaultEnemy, cPlayerG, cPlayerA]
    have harg : (cPlayerG.x - cEnemyChase2.x) * (cPlayerG.x - cEnemyChase2.x) +
        (cPlayerG.y - cEnemyChase2.y) * (cPlayerG.y - cEnemyChase2.y) = 4096 := by
      norm_num [cPlayerG, cPlayerA, cEnemyChase2, defaultEnemy]
    have hsq : sqrtC10 ((cPlayerG.x - cEnemyChase2.x) * (cPlayerG.x - cEnemyChase2.x) +
        (cPlayerG.y - cEnemyChase2.y) * (cPlayerG.y - cEnemyChase2.y)) = 64 := by
      rw [harg]
      simp [sqrtC10]
    have hmove : (cEnemyChase2.moveTowardPlayer sqrtC10 cPlayerG 1
        (cEnemyChase2.chaseSpeed * cEnemyChase2.baseSpeed)).x = 40 ∧
        (cEnemyChase2.moveTowardPlayer sqrtC10 cPlayerG 1
        (cEnemyChase2.chaseSpeed * cEnemyChase2.baseSpeed)).y = 40 := by
      simp only [EnemyRec.moveTowardPlayer, hpalive, Bool.not_true, Bool.false_eq_true,
        if_false, hsq]
      rw [if_neg (by norm_num)]
      constructor <;> norm_num [cEnemyChase2, defaultEnemy, cPlayerG, cPlayerA]
    have hupd : (cEnemyChase2.update sqrtC10 1 (some cPlayerG)
        (some fun x y w h => checkCollisionWithMap x y w h sampleMap)) =
        (cEnemyChase2.moveTowardPlayer sqrtC10 cPlayerG 1
          (cEnemyChase2.chaseSpeed * cEnemyChase2.baseSpeed), some cPlayerG) := by
      simp only [EnemyRec.update, hactive, halive, hstate, hpalive, hdetect, hattack,
        Bool.not_true, Bool.or_self, Bool.false_eq_true, if_false, Bool.not_false,
        Bool.false_or, Bool.or_false]
    refine ⟨by rw [hupd]; exact hmove.1, by rw [hupd]; exact hmove.2, ?_⟩
    have h := collision_probe_spec sampleMap (by norm_num [sampleMap])
    exact h.2.2 40 40 16 16 1 1 (by norm_num [sampleMap]) (by norm_num [sampleMap])
      (by norm_num [sampleMap]) (by norm_num [sampleMap]) (by norm_num)
      (by norm_num [sampleMap]) (by norm_num) (by norm_num [sampleMap]) (by decide)
  · have hlen : cEnemyPatrol.patrolPoints.length ≠ 0 := by simp [cEnemyPatrol]
    have htimer : ¬(0 < cEnemyPatrol.patrolTimer) := by norm_num [cEnemyPatrol]
    have htarget : cEnemyPatrol.patrolPoints.getD cEnemyPatrol.currentPatrolIndex (0, 0) =
        ((100 : Rat), (0 : Rat)) := by simp [cEnemyPatrol]
    have hfar : ¬(((100 : Rat) - cEnemyPatrol.x) * (100 - cEnemyPatrol.x) +
        ((0 : Rat) - cEnemyPatrol.y) * (0 - cEnemyPatrol.y) < 25) := by
      norm_num [cEnemyPatrol, defaultEnemy]
    have hsq : sqrtP ((100 - cEnemyPatrol.x) * (100 - cEnemyPatrol.x) +
        (0 - cEnemyPatrol.y) * (0 - cEnemyPatrol.y)) = 100 := by
      norm_num [cEnemyPatrol, defaultEnemy, sqrtP]
    constructor
    · simp only [EnemyRec.patrol, if_neg hlen, if_neg htimer, htarget, if_neg hfar, hsq,
        probeAll, Bool.not_true, Bool.false_eq_true, if_false]
      norm_num [cEnemyPatrol, defaultEnemy]
    · simp only [EnemyRec.patrol, if_neg hlen, if_neg htimer, htarget, if_neg hfar, hsq,
        probeClear, Bool.not_false, if_true]
      norm_num [cEnemyPatrol, defaultEnemy]

/-- Witness for claim C10: the concrete chasing enemy's update is the
same under an all-blocking probe and under no probe at all. -/
theorem chase_ignores_collision_probe_witness :
    cEnemyChase2.update sqrtC10 1 (some cPlayerG) (some probeAll) =
      cEnemyChase2.update sqrtC10 1 (some cPlayerG) none :=
  chase_ignores_collision_probe.1 cEnemyChase2 sqrtC10 1 (some cPlayerG)
    (some probeAll) none rfl

/-- A player with the skill1 trigger flag pending and the basic attack
equipped in slot 0, idle otherwise. -/
def c6Player : PlayerRec :=
  { cPlayerA with input := { noInput with skill1 := true }, skillSlots := [some cSkill] }

/-- A game-controller state on the sample map with the pending-skill
player, no enemies and a wave timer far from firing. -/
def c6Game : GCState :=
  { player := c6Player, gameMap := sampleMap,
    camera := { x := 0, y := 0, width := 448, height := 320 },
    enemies := [], em := cEM, isRunning := true, isPaused := false, tileSize := 32 }

/-- Claim C6 (code bug): on a Game Controller frame the pending skill1
flag is neither dispatched nor cleared — the controller calls
`Player.update` without a render context or enemy list, so the dispatch
block is skipped: after the frame the flag is still set and the equipped
skill's `lastUsed` stamp is untouched.  By contrast, `Player.update`
invoked with a render context does dispatch and clear, stamping the
skill — which is what the claim (and the spec's data flow) describes. -/
theorem game_controller_skill_dispatch_bug :
    (c6Game.update (fun q => q) (1/60) [] 12345).player.input.skill1 = true ∧
    (c6Game.update (fun q => q) (1/60) [] 12345).player.skillSlots = [some cSkill] ∧
    (c6Player.update (1/60) (some probeClear) none true 12345).1.input.skill1 = false ∧
    (c6Player.update (1/60) (some probeClear) none true 12345).1.skillSlots =
      [some { cSkill with lastUsed := 12345 }] := by
  have halive : c6Player.isAlive = true := by
    norm_num [PlayerRec.isAlive, c6Player, cPlayerA]
  have hactive : c6Player.active = true := rfl
  have hmd1 : movementDelta c6Player.input (c6Player.speed * 60 * (1/60))
      c6Player.direction = (0, 0, c6Player.direction) := rfl
  have hpupd : ∀ ck : Option Probe,
      (c6Player.update (1/60) ck none false 12345).1 =
        { c6Player with direction := c6Player.direction } := by
    intro ck
    simp only [PlayerRec.update, hactive, halive, Bool.not_true, Bool.or_self,
      Bool.false_eq_true, if_false, hmd1]
    rw [if_neg (by simp)]
  have hcond : (!c6Game.isRunning || c6Game.isPaused) = false := rfl
  have hgc : (c6Game.update (fun q => q) (1/60) [] 12345).player =
      { c6Player with direction := c6Player.direction } := by
    simp only [GCState.update, hcond, Bool.false_eq_true, if_false,
      show c6Game.enemies = [] from rfl, List.foldl_nil, List.filter_nil,
      show c6Game.player = c6Player from rfl]
    exact hpupd _
  refine ⟨by rw [hgc]; rfl, by rw [hgc]; rfl, ?_, ?_⟩
  all_goals
    norm_num [PlayerRec.update, PlayerRec.isAlive, movementDelta, dispatchSkills,
      dispatchSkill1, dispatchSkill2, dispatchSkill3, dispatchSkill4, useSkill,
      SkillRec.use, basicAttackExecute, c6Player, cPlayerA, noInput, cSkill, probeClear]
